import Mathlib

/-!
# Verification of the PDF fact-checking pipeline (`src/app.py`)

Shallow embedding of the claim-verification pipeline. External services
(Mistral chat completion, Tavily search) are modelled as oracle functions
returning `Except String _`: `Except.error e` stands for a raised exception
whose `str(e)` is `e`; a raised `json.JSONDecodeError` from `json.loads` on
the response content is likewise an `Except.error`, since the Python code
catches it with the same `except Exception` handler as the service call
(in `analyze_claim_with_mistral`) or with a dedicated inner handler that is
modelled separately (in `extract_claims`, where parse failure is a distinct
path from a service exception).

JSON values are modelled by the inductive `Json`; Python dicts become
association lists `List (String × Json)` looked up with `jsonLookup`
(Python dict keys are unique, so first-match lookup agrees with dict
access). Claim records consumed by the main loop are modelled in the typed
shape the extraction prompt contracts — a record of three optional string
fields — mirroring the `claim_data.get(key, default)` accesses of `main`.
-/

namespace FactCheck

/-- A parsed JSON value, as produced by `json.loads`. -/
inductive Json where
  | null
  | bool (b : Bool)
  | num (n : Int)
  | str (s : String)
  | arr (elems : List Json)
  | obj (fields : List (String × Json))

/-- Python dict access `d.get(key)` on a JSON object's field list:
first entry with the given key (dict keys are unique). -/
def jsonLookup (fields : List (String × Json)) (key : String) : Option Json :=
  match fields with
  | [] => none
  | (k, v) :: rest => if k = key then some v else jsonLookup rest key

/-- `extract_claims` (src/app.py:51-103). The oracle argument is the outcome
of the Mistral call on the extraction prompt: `Except.error e` models the
service call raising, `Except.ok none` models content that `json.loads`
rejects, and `Except.ok (some j)` models content parsed to the value `j`.
The Python function's return type is dynamic: it returns `result['claims']`
(or `result['data']`) verbatim, whatever JSON value that is, so the model
returns `Json` (a list of claim records is `Json.arr _`). -/
def extract_claims (response : Except String (Option Json)) : Json :=
  match response with
  | .error _ => .arr []
  | .ok none => .arr []
  | .ok (some result) =>
    match result with
    | .obj fields =>
      match jsonLookup fields "claims" with
      | some v => v
      | none =>
        match jsonLookup fields "data" with
        | some v => v
        | none => .arr [.obj fields]
    | .arr elems => .arr elems
    | _ => .arr []

/-- A Tavily search result entry: a dict that may omit any of its keys. -/
structure Source where
  title : Option String
  url : Option String
  content : Option String

/-- The dict returned by a successful `tavily_client.search` call;
`results` and `answer` may be absent (`search_results.get(...)`). -/
structure TavilyResponse where
  results : Option (List Source)
  answer : Option String

/-- The arguments `fact_check_claim` passes to `tavily_client.search`. -/
structure SearchRequest where
  query : String
  max_results : Nat
  search_depth : String

/-- The dict `fact_check_claim` returns. The success dict has no `error`
key (modelled `none`); the failure dict carries `error = str(e)`. -/
structure SearchOutcome where
  success : Bool
  results : List Source
  answer : String
  error : Option String

/-- `fact_check_claim` (src/app.py:105-125). The oracle argument models
`tavily_client.search`; `Except.error e` is a raised exception. Note the
`claim` parameter is accepted but unused, exactly as in the source. -/
def fact_check_claim (tavily : SearchRequest → Except String TavilyResponse)
    (claim : String) (search_query : String) : SearchOutcome :=
  match tavily { query := search_query, max_results := 5, search_depth := "advanced" } with
  | .ok search_results =>
    { success := true
      results := search_results.results.getD []
      answer := search_results.answer.getD ""
      error := none }
  | .error e =>
    { success := false
      results := []
      answer := ""
      error := some e }

/-- The evidence block built by `analyze_claim_with_mistral`
(src/app.py:131-135): first 5 sources, each content snippet cut to 500
characters, with placeholder strings for missing keys. -/
def formatSearchResults (search_results : List Source) : String :=
  String.join ((search_results.take 5).enum.map (fun p =>
    "\n" ++ toString (p.1 + 1) ++ ". " ++ p.2.title.getD "No title" ++ "\n" ++
    "   URL: " ++ p.2.url.getD "No URL" ++ "\n" ++
    "   Content: " ++ (p.2.content.getD "No content").take 500 ++ "...\n"))

/-- The synthetic verdict dict built by `analyze_claim_with_mistral`'s
exception handler (src/app.py:168-173). -/
def analysisErrorDict (msg : String) : List (String × Json) :=
  [("verdict", Json.str "ERROR"),
   ("confidence", Json.str "LOW"),
   ("explanation", Json.str msg),
   ("evidence", Json.str "")]

/-- `analyze_claim_with_mistral` (src/app.py:127-173). The oracle argument
models the Mistral call followed by `json.loads` on its content: both a
service exception and a `JSONDecodeError` raise inside the same `try` and
are caught by the same `except Exception as e`, so both are `Except.error e`.
`response_format = json_object` makes a parsed content a JSON object, so a
successful outcome carries its field list. The oracle is a function of the
two document-dependent parts of the prompt: the claim text and the
formatted evidence block. On success the parsed object is returned
verbatim — no validation of its fields. -/
def analyze_claim_with_mistral
    (mistral : String → String → Except String (List (String × Json)))
    (claim : String) (search_results : List Source) : List (String × Json) :=
  let formatted_results := formatSearchResults search_results
  match mistral claim formatted_results with
  | .ok parsed => parsed
  | .error e => analysisErrorDict ("Error analyzing claim: " ++ e)

/-- One extracted claim record as consumed by `main`'s loop
(src/app.py:227-230): a dict whose three known keys may each be absent. -/
structure ClaimData where
  claim : Option String
  category : Option String
  search_query : Option String

/-- `claim = claim_data.get('claim', '')` (src/app.py:228). -/
def claimOf (claim_data : ClaimData) : String := claim_data.claim.getD ""

/-- `category = claim_data.get('category', 'General')` (src/app.py:229). -/
def categoryOf (claim_data : ClaimData) : String := claim_data.category.getD "General"

/-- `search_query = claim_data.get('search_query', claim)` (src/app.py:230). -/
def searchQueryOf (claim_data : ClaimData) : String :=
  claim_data.search_query.getD (claimOf claim_data)

/-- The per-claim result dict appended by `main` (src/app.py:252-258). -/
structure ClaimResult where
  claim : String
  category : String
  search_query : String
  analysis : List (String × Json)
  sources : List Source

/-- The synthetic analysis dict `main` builds when retrieval fails
(src/app.py:245-250). -/
def searchFailedDict (err : String) : List (String × Json) :=
  [("verdict", Json.str "ERROR"),
   ("confidence", Json.str "LOW"),
   ("explanation", Json.str ("Search failed: " ++ err)),
   ("evidence", Json.str "")]

/-- One iteration of `main`'s fact-checking loop (src/app.py:227-258):
retrieve, then either analyze (on success) or synthesize the search-failed
verdict (the Analyzer oracle is not consulted), then assemble the result
dict with the first three retrieved sources. -/
def processClaim (tavily : SearchRequest → Except String TavilyResponse)
    (mistral : String → String → Except String (List (String × Json)))
    (claim_data : ClaimData) : ClaimResult :=
  let claim := claimOf claim_data
  let category := categoryOf claim_data
  let search_query := searchQueryOf claim_data
  let search_result := fact_check_claim tavily claim search_query
  let analysis :=
    if search_result.success then
      analyze_claim_with_mistral mistral claim search_result.results
    else
      searchFailedDict (search_result.error.getD "Unknown error")
  { claim := claim
    category := category
    search_query := search_query
    analysis := analysis
    sources := search_result.results.take 3 }

/-- `main`'s whole fact-checking loop (src/app.py:226-260): the `results`
list after the `for` loop over `claims`, one appended entry per iteration,
in iteration order. -/
def mainResults (tavily : SearchRequest → Except String TavilyResponse)
    (mistral : String → String → Except String (List (String × Json)))
    (claims : List ClaimData) : List ClaimResult :=
  claims.map (processClaim tavily mistral)

/-- `r['analysis'].get('verdict')` (src/app.py:272-275). -/
def verdictOf (r : ClaimResult) : Option Json := jsonLookup r.analysis "verdict"

/-- `r['analysis'].get('confidence')`. -/
def confidenceOf (r : ClaimResult) : Option Json := jsonLookup r.analysis "confidence"

/-- `r['analysis'].get('explanation')`. -/
def explanationOf (r : ClaimResult) : Option Json := jsonLookup r.analysis "explanation"

/-- Python `d.get('verdict') == s` for a string `s`: true exactly when the
value is present and is that string (any other JSON value compares unequal). -/
def isStrEq (v : Option Json) (s : String) : Bool :=
  match v with
  | some (.str t) => t = s
  | _ => false

/-- `accurate = sum(1 for r in results if ... == 'ACCURATE')` (src/app.py:272). -/
def accurateCount (results : List ClaimResult) : Nat :=
  (results.map (fun r => if isStrEq (verdictOf r) "ACCURATE" then 1 else 0)).sum

/-- `inaccurate = sum(...)` (src/app.py:273). -/
def inaccurateCount (results : List ClaimResult) : Nat :=
  (results.map (fun r => if isStrEq (verdictOf r) "INACCURATE" then 1 else 0)).sum

/-- `partial = sum(...)` (src/app.py:274); the Python local is a Lean keyword,
hence the longer name. -/
def partiallyAccurateCount (results : List ClaimResult) : Nat :=
  (results.map (fun r => if isStrEq (verdictOf r) "PARTIALLY_ACCURATE" then 1 else 0)).sum

/-- `unverifiable = sum(1 for r in results if ... in ['UNVERIFIABLE', 'ERROR'])`
(src/app.py:275): the combined bucket. -/
def unverifiableOrErrorCount (results : List ClaimResult) : Nat :=
  (results.map (fun r =>
    if isStrEq (verdictOf r) "UNVERIFIABLE" || isStrEq (verdictOf r) "ERROR" then 1 else 0)).sum

/-- The five-label enumeration of the spec: a verdict value is one of
ACCURATE, INACCURATE, PARTIALLY_ACCURATE, UNVERIFIABLE, ERROR. -/
def isEnumVerdict (v : Option Json) : Bool :=
  isStrEq v "ACCURATE" || isStrEq v "INACCURATE" || isStrEq v "PARTIALLY_ACCURATE" ||
    isStrEq v "UNVERIFIABLE" || isStrEq v "ERROR"

/-! ## Concrete oracles used to instantiate the theorems -/

/-- A Tavily oracle whose `search` call raises with message `"timeout"`. -/
def tavTimeout : SearchRequest → Except String TavilyResponse :=
  fun _ => .error "timeout"

/-- A Tavily oracle returning zero results, successfully. -/
def tavEmptyOk : SearchRequest → Except String TavilyResponse :=
  fun _ => .ok ⟨some [], some ""⟩

/-- The `i`-th sample source entry. -/
def sampleSource (i : Nat) : Source :=
  ⟨some ("title " ++ toString i), some ("url " ++ toString i), some ("content " ++ toString i)⟩

/-- A Tavily oracle returning five ranked sources. -/
def tavFive : SearchRequest → Except String TavilyResponse :=
  fun _ => .ok ⟨some [sampleSource 1, sampleSource 2, sampleSource 3,
                      sampleSource 4, sampleSource 5], some "answer"⟩

/-- A Mistral analysis oracle whose call raises with message `"503"`. -/
def misUnreachable : String → String → Except String (List (String × Json)) :=
  fun _ _ => .error "503"

/-- A Mistral analysis oracle returning a well-formed ACCURATE verdict object. -/
def misAccurate : String → String → Except String (List (String × Json)) :=
  fun _ _ => .ok [("verdict", Json.str "ACCURATE"), ("confidence", Json.str "HIGH"),
                  ("explanation", Json.str "ok"), ("evidence", Json.str "ev")]

/-- A Mistral analysis oracle returning a parseable object whose verdict is a
free-form label outside the five-value enumeration. -/
def misFreeForm : String → String → Except String (List (String × Json)) :=
  fun _ _ => .ok [("verdict", Json.str "MOSTLY_TRUE"), ("confidence", Json.str "HIGH"),
                  ("explanation", Json.str "loose"), ("evidence", Json.str "")]

/-! ## Theorems -/

/-- C10: `fact_check_claim` ignores the claim text it is handed: for any two
claim texts and the same search query, against the same web-search oracle,
the retrieval outcomes are identical — retrieval depends only on the
`search_query` argument. -/
theorem fact_check_ignores_claim_text
    (tavily : SearchRequest → Except String TavilyResponse)
    (claim₁ claim₂ search_query : String) :
    fact_check_claim tavily claim₁ search_query =
      fact_check_claim tavily claim₂ search_query := rfl

/-- C1: for every non-empty extracted claim list, the main loop produces
exactly one `ClaimResult` per claim, in the extractor's output order: the
results list has the same length, and its `i`-th entry is the processed
`i`-th claim — for every choice of retrieval and analysis oracle, including
ones that always fail. -/
theorem mainResults_one_result_per_claim
    (tavily : SearchRequest → Except String TavilyResponse)
    (mistral : String → String → Except String (List (String × Json)))
    (claims : List ClaimData) (hne : claims ≠ []) :
    (mainResults tavily mistral claims).length = claims.length ∧
      ∀ i : Nat, (mainResults tavily mistral claims)[i]? =
        (claims[i]?).map (processClaim tavily mistral) := by
  refine ⟨by simp [mainResults], fun i => ?_⟩
  simp [mainResults]

/-- Witness for C1: a one-claim run against a failing retriever and a failing
analyzer still yields exactly one result, which is the processed claim. -/
theorem mainResults_one_result_per_claim_w :
    (mainResults tavTimeout misUnreachable [ClaimData.mk (some "c") none none]).length = 1 ∧
      (mainResults tavTimeout misUnreachable [ClaimData.mk (some "c") none none])[0]? =
        some (processClaim tavTimeout misUnreachable (ClaimData.mk (some "c") none none)) :=
  ⟨(mainResults_one_result_per_claim tavTimeout misUnreachable
      [ClaimData.mk (some "c") none none] (by simp)).1,
   ((mainResults_one_result_per_claim tavTimeout misUnreachable
      [ClaimData.mk (some "c") none none] (by simp)).2 0).trans rfl⟩

/-- C8: a result's stored sources are exactly the first three entries of the
retrieved source list: at most 3 of them, no more than were retrieved, an
initial segment in the retriever's order; and exactly 3 when five sources
were retrieved. -/
theorem top_sources_take_three
    (tavily : SearchRequest → Except String TavilyResponse)
    (mistral : String → String → Except String (List (String × Json)))
    (claim_data : ClaimData) :
    (processClaim tavily mistral claim_data).sources =
      ((fact_check_claim tavily (claimOf claim_data) (searchQueryOf claim_data)).results).take 3 ∧
    (processClaim tavily mistral claim_data).sources.length ≤ 3 ∧
    (processClaim tavily mistral claim_data).sources.length ≤
      (fact_check_claim tavily (claimOf claim_data) (searchQueryOf claim_data)).results.length ∧
    (processClaim tavily mistral claim_data).sources <+:
      (fact_check_claim tavily (claimOf claim_data) (searchQueryOf claim_data)).results ∧
    ((fact_check_claim tavily (claimOf claim_data) (searchQueryOf claim_data)).results.length = 5 →
      (processClaim tavily mistral claim_data).sources.length = 3) := by
  set srcs := (fact_check_claim tavily (claimOf claim_data) (searchQueryOf claim_data)).results with hsrcs
  have hsources : (processClaim tavily mistral claim_data).sources = srcs.take 3 := rfl
  refine ⟨hsources, ?_, ?_, ?_, ?_⟩
  · rw [hsources]; simp [List.length_take]
  · rw [hsources]; simp [List.length_take]
  · rw [hsources]; exact ⟨srcs.drop 3, List.take_append_drop 3 srcs⟩
  · intro h5
    rw [hsources]
    simp [List.length_take, h5]

/-- Witness for C8: with a retriever returning five sources, the stored
sources number exactly three. -/
theorem top_sources_take_three_w :
    (processClaim tavFive misAccurate (ClaimData.mk (some "c") none none)).sources.length = 3 :=
  (top_sources_take_three tavFive misAccurate (ClaimData.mk (some "c") none none)).2.2.2.2 rfl

/-- C6: `fact_check_claim` is a total boundary over the search oracle: when
the oracle raises it returns the failure dict (`success = false`, the error
string, empty sources and answer); when the oracle succeeds it returns the
success dict with the returned sources; and `success = true` holds exactly
when the oracle call succeeded, so a failed call and an empty result set
are distinguishable by the flag. -/
theorem fact_check_total_boundary
    (tavily : SearchRequest → Except String TavilyResponse)
    (claim search_query : String) :
    (∀ e, tavily ⟨search_query, 5, "advanced"⟩ = .error e →
      fact_check_claim tavily claim search_query =
        { success := false, results := [], answer := "", error := some e }) ∧
    (∀ resp, tavily ⟨search_query, 5, "advanced"⟩ = .ok resp →
      fact_check_claim tavily claim search_query =
        { success := true, results := resp.results.getD [], answer := resp.answer.getD "",
          error := none }) ∧
    ((fact_check_claim tavily claim search_query).success = true ↔
      ∃ resp, tavily ⟨search_query, 5, "advanced"⟩ = .ok resp) := by
  refine ⟨fun e he => ?_, fun resp hr => ?_, ?_⟩
  · simp [fact_check_claim, he]
  · simp [fact_check_claim, hr]
  · cases h : tavily ⟨search_query, 5, "advanced"⟩ <;> simp [fact_check_claim, h]

/-- Witness for C6: against the raising oracle, retrieval reports
`success = false` carrying `"timeout"`; against the zero-result oracle it
reports `success = true` with no sources. -/
theorem fact_check_total_boundary_w :
    fact_check_claim tavTimeout "c" "q" =
      { success := false, results := [], answer := "", error := some "timeout" } ∧
    fact_check_claim tavEmptyOk "c" "q" =
      { success := true, results := [], answer := "", error := none } :=
  ⟨(fact_check_total_boundary tavTimeout "c" "q").1 "timeout" rfl,
   (fact_check_total_boundary tavEmptyOk "c" "q").2.1 ⟨some [], some ""⟩ rfl⟩

/-- C3: when retrieval reports failure, the loop synthesizes the
search-failed analysis — verdict ERROR, confidence LOW, an explanation that
is `"Search failed: "` followed by the retrieval error message (so it
contains that message) — and the analysis oracle is never consulted: the
result is the same for every analysis oracle. -/
theorem retrieval_failure_error_verdict
    (tavily : SearchRequest → Except String TavilyResponse)
    (mistral mistral' : String → String → Except String (List (String × Json)))
    (claim_data : ClaimData)
    (hfail : (fact_check_claim tavily (claimOf claim_data) (searchQueryOf claim_data)).success
      = false) :
    (processClaim tavily mistral claim_data).analysis =
      searchFailedDict
        ((fact_check_claim tavily (claimOf claim_data) (searchQueryOf claim_data)).error.getD
          "Unknown error") ∧
    verdictOf (processClaim tavily mistral claim_data) = some (Json.str "ERROR") ∧
    confidenceOf (processClaim tavily mistral claim_data) = some (Json.str "LOW") ∧
    (∀ err,
      (fact_check_claim tavily (claimOf claim_data) (searchQueryOf claim_data)).error = some err →
      explanationOf (processClaim tavily mistral claim_data) =
        some (Json.str ("Search failed: " ++ err)) ∧
      ∃ before after, "Search failed: " ++ err = before ++ (err ++ after)) ∧
    processClaim tavily mistral claim_data = processClaim tavily mistral' claim_data := by
  have hana : (processClaim tavily mistral claim_data).analysis =
      searchFailedDict
        ((fact_check_claim tavily (claimOf claim_data) (searchQueryOf claim_data)).error.getD
          "Unknown error") := by
    simp [processClaim, hfail]
  refine ⟨hana, ?_, ?_, fun err herr => ⟨?_, "Search failed: ", "", ?_⟩, ?_⟩
  · rw [verdictOf, hana]; rfl
  · rw [confidenceOf, hana]; rfl
  · rw [explanationOf, hana, herr]; rfl
  · rw [String.append_empty]
  · simp [processClaim, hfail]

/-- Witness for C3: one claim against a retriever that raises `"timeout"`:
the result's verdict is ERROR and its explanation is `"Search failed: timeout"`,
and the result does not depend on the analysis oracle. -/
theorem retrieval_failure_error_verdict_w :
    verdictOf (processClaim tavTimeout misAccurate (ClaimData.mk (some "c") none none)) =
      some (Json.str "ERROR") ∧
    explanationOf (processClaim tavTimeout misAccurate (ClaimData.mk (some "c") none none)) =
      some (Json.str "Search failed: timeout") ∧
    processClaim tavTimeout misAccurate (ClaimData.mk (some "c") none none) =
      processClaim tavTimeout misUnreachable (ClaimData.mk (some "c") none none) :=
  ⟨(retrieval_failure_error_verdict tavTimeout misAccurate misUnreachable
      (ClaimData.mk (some "c") none none) rfl).2.1,
   ((retrieval_failure_error_verdict tavTimeout misAccurate misUnreachable
      (ClaimData.mk (some "c") none none) rfl).2.2.2.1 "timeout" rfl).1,
   (retrieval_failure_error_verdict tavTimeout misAccurate misUnreachable
      (ClaimData.mk (some "c") none none) rfl).2.2.2.2⟩

/-- C4: when the analysis call raises — a service failure, or content that
`json.loads` rejects, both caught by the same handler — `analyze_claim_with_mistral`
returns the synthetic error dict: verdict ERROR, confidence LOW, an
explanation `"Error analyzing claim: "` followed by the failure reason (so
it contains that reason), and empty evidence; the fault never escapes. -/
theorem analyze_failure_error_verdict
    (mistral : String → String → Except String (List (String × Json)))
    (claim : String) (search_results : List Source) (e : String)
    (hfail : mistral claim (formatSearchResults search_results) = .error e) :
    analyze_claim_with_mistral mistral claim search_results =
      analysisErrorDict ("Error analyzing claim: " ++ e) ∧
    jsonLookup (analyze_claim_with_mistral mistral claim search_results) "verdict" =
      some (Json.str "ERROR") ∧
    jsonLookup (analyze_claim_with_mistral mistral claim search_results) "confidence" =
      some (Json.str "LOW") ∧
    jsonLookup (analyze_claim_with_mistral mistral claim search_results) "explanation" =
      some (Json.str ("Error analyzing claim: " ++ e)) ∧
    (∃ before after, "Error analyzing claim: " ++ e = before ++ (e ++ after)) ∧
    jsonLookup (analyze_claim_with_mistral mistral claim search_results) "evidence" =
      some (Json.str "") := by
  have hdict : analyze_claim_with_mistral mistral claim search_results =
      analysisErrorDict ("Error analyzing claim: " ++ e) := by
    simp [analyze_claim_with_mistral, hfail]
  refine ⟨hdict, ?_, ?_, ?_, ⟨"Error analyzing claim: ", "", ?_⟩, ?_⟩
  · rw [hdict]; rfl
  · rw [hdict]; rfl
  · rw [hdict]; rfl
  · rw [String.append_empty]
  · rw [hdict]; rfl

/-- Witness for C4: an analysis oracle raising `"503"` yields the synthetic
ERROR verdict dict with the reason in the explanation. -/
theorem analyze_failure_error_verdict_w :
    analyze_claim_with_mistral misUnreachable "c" [] =
      analysisErrorDict "Error analyzing claim: 503" ∧
    jsonLookup (analyze_claim_with_mistral misUnreachable "c" []) "verdict" =
      some (Json.str "ERROR") :=
  ⟨(analyze_failure_error_verdict misUnreachable "c" [] "503" rfl).1,
   (analyze_failure_error_verdict misUnreachable "c" [] "503" rfl).2.1⟩

/-- C2 (counterexample): a pipeline run in which retrieval succeeds and the
model's parsed response carries the free-form verdict `"MOSTLY_TRUE"`
produces a `ClaimResult` whose verdict label is outside the five-value
enumeration: the code stores the parsed object verbatim, with no
validation. -/
theorem verdict_free_form_cex :
    ((mainResults tavEmptyOk misFreeForm [ClaimData.mk (some "c") none none])[0]?).map
      (fun r => isEnumVerdict (verdictOf r)) = some false ∧
    ((mainResults tavEmptyOk misFreeForm [ClaimData.mk (some "c") none none])[0]?).map
      verdictOf = some (some (Json.str "MOSTLY_TRUE")) := ⟨rfl, rfl⟩

/-- C2 (amended): every `ClaimResult`'s analysis is either the synthetic
error dict (verdict ERROR, confidence LOW — produced on retrieval failure
or on an analysis-call failure) or the model's parsed response object
stored verbatim; so the verdict label lies in the five-value enumeration
exactly when the model's returned object keeps it there, and it is the
string ERROR on every failure path. -/
theorem verdict_error_or_verbatim
    (tavily : SearchRequest → Except String TavilyResponse)
    (mistral : String → String → Except String (List (String × Json)))
    (claim_data : ClaimData) :
    (verdictOf (processClaim tavily mistral claim_data) = some (Json.str "ERROR") ∧
     confidenceOf (processClaim tavily mistral claim_data) = some (Json.str "LOW")) ∨
    (∃ parsed,
      mistral (claimOf claim_data)
        (formatSearchResults
          (fact_check_claim tavily (claimOf claim_data) (searchQueryOf claim_data)).results) =
        .ok parsed ∧
      (processClaim tavily mistral claim_data).analysis = parsed) := by
  by_cases hs : (fact_check_claim tavily (claimOf claim_data) (searchQueryOf claim_data)).success
    = true
  · cases hm : mistral (claimOf claim_data)
      (formatSearchResults
        (fact_check_claim tavily (claimOf claim_data) (searchQueryOf claim_data)).results) with
    | error e =>
      left
      constructor
      · simp [verdictOf, processClaim, hs, analyze_claim_with_mistral, hm, analysisErrorDict,
          jsonLookup]
      · simp [confidenceOf, processClaim, hs, analyze_claim_with_mistral, hm, analysisErrorDict,
          jsonLookup]
    | ok parsed =>
      right
      exact ⟨parsed, rfl, by simp [processClaim, hs, analyze_claim_with_mistral, hm]⟩
  · left
    rw [Bool.not_eq_true] at hs
    constructor
    · simp [verdictOf, processClaim, hs, searchFailedDict, jsonLookup]
    · simp [confidenceOf, processClaim, hs, searchFailedDict, jsonLookup]

/-- C5 (counterexample): a parsed response `{"claims": 42}` is valid JSON in
none of the three accepted shapes (its `claims` key wraps no list, and it is
not treated as a single claim object), yet `extract_claims` returns the
value `42` verbatim instead of an empty claim list: the value under a
`claims` key passes through unvalidated. -/
theorem extract_claims_nonlist_value_cex :
    extract_claims (.ok (some (Json.obj [("claims", Json.num 42)]))) = Json.num 42 ∧
    Json.num 42 ≠ Json.arr [] :=
  ⟨rfl, fun h => Json.noConfusion h⟩

/-- C5 (amended): `extract_claims` normalizes a bare list to itself, a dict
without a `claims` or `data` key to a one-element list wrapping it, and
returns the value under a `claims` key (else a `data` key) verbatim —
whatever JSON value that is, a list only when the service honours its
contract; a parsed scalar, an unparseable response, and a failed service
call all yield the empty claim list. -/
theorem extract_claims_shape_handling (e : String) (elems : List Json)
    (fields : List (String × Json)) (s : String) (n : Int) (b : Bool) (v : Json) :
    extract_claims (.error e) = Json.arr [] ∧
    extract_claims (.ok none) = Json.arr [] ∧
    extract_claims (.ok (some (Json.arr elems))) = Json.arr elems ∧
    (jsonLookup fields "claims" = some v →
      extract_claims (.ok (some (Json.obj fields))) = v) ∧
    (jsonLookup fields "claims" = none → jsonLookup fields "data" = some v →
      extract_claims (.ok (some (Json.obj fields))) = v) ∧
    (jsonLookup fields "claims" = none → jsonLookup fields "data" = none →
      extract_claims (.ok (some (Json.obj fields))) = Json.arr [Json.obj fields]) ∧
    extract_claims (.ok (some (Json.str s))) = Json.arr [] ∧
    extract_claims (.ok (some (Json.num n))) = Json.arr [] ∧
    extract_claims (.ok (some (Json.bool b))) = Json.arr [] ∧
    extract_claims (.ok (some Json.null)) = Json.arr [] := by
  refine ⟨rfl, rfl, rfl, fun hc => ?_, fun hc hd => ?_, fun hc hd => ?_, rfl, rfl, rfl, rfl⟩
  · simp [extract_claims, hc]
  · simp [extract_claims, hc, hd]
  · simp [extract_claims, hc, hd]

/-- Witness for C5 (amended): a response wrapping the claim list under a
`claims` key normalizes to that list. -/
theorem extract_claims_shape_handling_w :
    extract_claims (.ok (some (Json.obj [("claims", Json.arr [Json.str "c"])]))) =
      Json.arr [Json.str "c"] :=
  (extract_claims_shape_handling "" [] [("claims", Json.arr [Json.str "c"])] "" 0 true
    (Json.arr [Json.str "c"])).2.2.2.1 rfl

/-- `isStrEq v s` holds exactly when `v` is the JSON string `s`. -/
theorem isStrEq_iff (v : Option Json) (s : String) :
    isStrEq v s = true ↔ v = some (Json.str s) := by
  cases v with
  | none => simp [isStrEq]
  | some j => cases j <;> simp [isStrEq]

/-- A sum of 0/1 indicators over a list is the `countP` of the predicate. -/
theorem sum_ite_eq_countP (p : ClaimResult → Bool) (results : List ClaimResult) :
    (results.map (fun r => if p r then (1 : Nat) else 0)).sum = results.countP p := by
  induction results with
  | nil => rfl
  | cons r rs ih => by_cases h : p r <;> simp [List.countP_cons, h, ih] <;> omega

/-- Counting results whose verdict is one of two distinct strings splits
into the two separate counts: a verdict value is at most one string. -/
theorem countP_verdict_or (s t : String) (hst : s ≠ t) (results : List ClaimResult) :
    (results.countP (fun r => isStrEq (verdictOf r) s || isStrEq (verdictOf r) t)) =
      results.countP (fun r => isStrEq (verdictOf r) s) +
        results.countP (fun r => isStrEq (verdictOf r) t) := by
  induction results with
  | nil => rfl
  | cons r rs ih =>
    by_cases hs' : isStrEq (verdictOf r) s = true <;>
      by_cases ht' : isStrEq (verdictOf r) t = true
    · exact absurd (((isStrEq_iff _ s).mp hs').symm.trans ((isStrEq_iff _ t).mp ht'))
        (by simp [hst])
    · simp [List.countP_cons, hs', ht', ih]; omega
    · simp [List.countP_cons, hs', ht', ih]; omega
    · simp [List.countP_cons, hs', ht', ih]

/-- C7: the four summary counts are pure functions of the result sequence —
each equals the `countP` of its verdict predicate, the UNVERIFIABLE-or-ERROR
bucket is the sum of the two separate counts, all four are additive over
concatenation, and the two-result scenario ACCURATE + INACCURATE counts
`1, 1, 0, 0`. -/
theorem summary_counts (results rs₁ rs₂ : List ClaimResult) (r₁ r₂ : ClaimResult)
    (h₁ : verdictOf r₁ = some (Json.str "ACCURATE"))
    (h₂ : verdictOf r₂ = some (Json.str "INACCURATE")) :
    accurateCount results = results.countP (fun r => isStrEq (verdictOf r) "ACCURATE") ∧
    inaccurateCount results = results.countP (fun r => isStrEq (verdictOf r) "INACCURATE") ∧
    partiallyAccurateCount results =
      results.countP (fun r => isStrEq (verdictOf r) "PARTIALLY_ACCURATE") ∧
    unverifiableOrErrorCount results =
      results.countP (fun r => isStrEq (verdictOf r) "UNVERIFIABLE") +
        results.countP (fun r => isStrEq (verdictOf r) "ERROR") ∧
    accurateCount (rs₁ ++ rs₂) = accurateCount rs₁ + accurateCount rs₂ ∧
    inaccurateCount (rs₁ ++ rs₂) = inaccurateCount rs₁ + inaccurateCount rs₂ ∧
    partiallyAccurateCount (rs₁ ++ rs₂) =
      partiallyAccurateCount rs₁ + partiallyAccurateCount rs₂ ∧
    unverifiableOrErrorCount (rs₁ ++ rs₂) =
      unverifiableOrErrorCount rs₁ + unverifiableOrErrorCount rs₂ ∧
    accurateCount [r₁, r₂] = 1 ∧ inaccurateCount [r₁, r₂] = 1 ∧
    partiallyAccurateCount [r₁, r₂] = 0 ∧ unverifiableOrErrorCount [r₁, r₂] = 0 := by
  refine ⟨sum_ite_eq_countP _ results, sum_ite_eq_countP _ results,
    sum_ite_eq_countP _ results,
    (sum_ite_eq_countP _ results).trans (countP_verdict_or _ _ (by decide) results),
    ?_, ?_, ?_, ?_, ?_, ?_, ?_, ?_⟩
  · simp [accurateCount]
  · simp [inaccurateCount]
  · simp [partiallyAccurateCount]
  · simp [unverifiableOrErrorCount]
  · simp [accurateCount, h₁, h₂, isStrEq]
  · simp [inaccurateCount, h₁, h₂, isStrEq]
  · simp [partiallyAccurateCount, h₁, h₂, isStrEq]
  · simp [unverifiableOrErrorCount, h₁, h₂, isStrEq]

/-- Witness for C7: two concrete results with verdicts ACCURATE and
INACCURATE count `1, 1, 0, 0`. -/
theorem summary_counts_w :
    accurateCount
        [ClaimResult.mk "a" "General" "a" [("verdict", Json.str "ACCURATE")] [],
         ClaimResult.mk "b" "General" "b" [("verdict", Json.str "INACCURATE")] []] = 1 ∧
    inaccurateCount
        [ClaimResult.mk "a" "General" "a" [("verdict", Json.str "ACCURATE")] [],
         ClaimResult.mk "b" "General" "b" [("verdict", Json.str "INACCURATE")] []] = 1 ∧
    partiallyAccurateCount
        [ClaimResult.mk "a" "General" "a" [("verdict", Json.str "ACCURATE")] [],
         ClaimResult.mk "b" "General" "b" [("verdict", Json.str "INACCURATE")] []] = 0 ∧
    unverifiableOrErrorCount
        [ClaimResult.mk "a" "General" "a" [("verdict", Json.str "ACCURATE")] [],
         ClaimResult.mk "b" "General" "b" [("verdict", Json.str "INACCURATE")] []] = 0 :=
  (summary_counts [] [] []
      (ClaimResult.mk "a" "General" "a" [("verdict", Json.str "ACCURATE")] [])
      (ClaimResult.mk "b" "General" "b" [("verdict", Json.str "INACCURATE")] [])
      rfl rfl).2.2.2.2.2.2.2.2

/-- C9 (counterexample): an extracted record with no `claim` key — but with
a category and a search query — flows through the pipeline with claim text
`""`: the code defaults the text to the empty string and never enforces
non-emptiness. -/
theorem claim_text_empty_cex :
    (processClaim tavEmptyOk misAccurate
        (ClaimData.mk none (some "Economy") (some "q"))).claim = "" ∧
    ¬((processClaim tavEmptyOk misAccurate
        (ClaimData.mk none (some "Economy") (some "q"))).claim ≠ "") :=
  ⟨rfl, fun h => h rfl⟩

/-- C9 (amended): in every processed result, the claim text is the record's
`claim` field defaulting to the empty string when absent (no non-emptiness
is enforced), the category defaults to `"General"` when absent, and the
search query defaults to the claim text when absent. -/
theorem claim_record_defaults
    (tavily : SearchRequest → Except String TavilyResponse)
    (mistral : String → String → Except String (List (String × Json)))
    (claim_data : ClaimData) :
    (processClaim tavily mistral claim_data).claim = claim_data.claim.getD "" ∧
    (processClaim tavily mistral claim_data).category = claim_data.category.getD "General" ∧
    (processClaim tavily mistral claim_data).search_query =
      claim_data.search_query.getD (claim_data.claim.getD "") ∧
    (claim_data.category = none → (processClaim tavily mistral claim_data).category = "General") ∧
    (claim_data.search_query = none →
      (processClaim tavily mistral claim_data).search_query =
        (processClaim tavily mistral claim_data).claim) ∧
    (∀ s, claim_data.claim = some s → (processClaim tavily mistral claim_data).claim = s) := by
  refine ⟨rfl, rfl, rfl, fun hc => ?_, fun hq => ?_, fun s hs => ?_⟩
  · show categoryOf claim_data = "General"
    simp [categoryOf, hc]
  · show searchQueryOf claim_data = claimOf claim_data
    simp [searchQueryOf, hq]
  · show claimOf claim_data = s
    simp [claimOf, hs]

/-- Witness for C9 (amended): a record carrying only a claim text gets
category `"General"` and a search query equal to the claim text. -/
theorem claim_record_defaults_w :
    (processClaim tavEmptyOk misAccurate (ClaimData.mk (some "The sky") none none)).category =
      "General" ∧
    (processClaim tavEmptyOk misAccurate (ClaimData.mk (some "The sky") none none)).search_query
      = (processClaim tavEmptyOk misAccurate (ClaimData.mk (some "The sky") none none)).claim :=
  ⟨(claim_record_defaults tavEmptyOk misAccurate
      (ClaimData.mk (some "The sky") none none)).2.2.2.1 rfl,
   (claim_record_defaults tavEmptyOk misAccurate
      (ClaimData.mk (some "The sky") none none)).2.2.2.2.1 rfl⟩

end FactCheck
